import Mathlib

/-!
Verification of the PlanktoScope device-backend acquisition/coordination core.

This file gives a shallow embedding, in Lean, of the parts of the
PlanktoScope device backend that the verified properties are about:

* the camera settings value object and the thread-safe settings setter
  (src/control/adafruithat/planktoscope/camera/hardware.py),
* the latest-value preview buffer
  (src/control/adafruithat/planktoscope/imagernew/streams.py),
* the MQTT pump RPC stub and its single-flight lock
  (src/control/pscopehat/planktoscope/imagernew/, class MQTTPump),
* the stop-flow acquisition command handling of both hardware variants.

Python floats are modelled as rationals, Python ints as integers; Python
dicts with a fixed key set are modelled as structures of Option-valued
fields, where None becomes Option.none.  Exceptions are modelled by
explicit error results.  Sequential code is embedded as pure state-passing
functions; the one genuinely concurrent component (the pump RPC client) is
embedded as a small-step interleaving transition system.
-/

namespace PlanktoScope

/-! ### Camera hardware settings (adafruithat camera/hardware.py)

Embedding of WhiteBalanceGains and SettingsValues.  Field order and the
order of validation checks follow the source.
-/

/-- Manual white balance gains (hardware.py, class WhiteBalanceGains). -/
structure WhiteBalanceGains where
  red : ℚ
  blue : ℚ
deriving DecidableEq

/-- Values for camera settings (hardware.py, class SettingsValues).
Fields with none values are ignored as if they were not set. -/
structure SettingsValues where
  auto_exposure : Option Bool := none
  exposure_time : Option ℤ := none
  frame_duration_limits : Option (ℤ × ℤ) := none
  image_gain : Option ℚ := none
  brightness : Option ℚ := none
  contrast : Option ℚ := none
  auto_white_balance : Option Bool := none
  white_balance_gains : Option WhiteBalanceGains := none
  sharpness : Option ℚ := none
  jpeg_quality : Option ℤ := none
deriving DecidableEq

namespace SettingsValues

/-- Check whether exposure_time is consistent with frame_duration_limits
(hardware.py, SettingsValues._validate_exposure_time). -/
def validateExposureTime (s : SettingsValues) : List String :=
  match s.exposure_time with
  | none => []
  | some v =>
    match s.frame_duration_limits with
    | none =>
      if v < 0 then ["Exposure time out of range [0, +Inf]: " ++ toString v] else []
    | some (min_limit, max_limit) =>
      if ¬(min_limit ≤ v ∧ v ≤ max_limit) then
        ["Exposure time out of range [" ++ toString min_limit ++ ", "
          ++ toString max_limit ++ "]: " ++ toString v]
      else []

/-- Look for values which are invalid because they are out-of-range
(hardware.py, SettingsValues.validate).  Errors are accumulated in the
same order as the source appends them. -/
def validate (s : SettingsValues) : List String :=
  let errors := s.validateExposureTime
  let errors := errors ++
    (match s.image_gain with
     | some value =>
       if ¬(0 ≤ value ∧ value ≤ 16) then
         ["Image gain out of range [0.0, 16.0]: " ++ toString value] else []
     | none => [])
  let errors := errors ++
    (match s.brightness with
     | some value =>
       if ¬(-1 ≤ value ∧ value ≤ 1) then
         ["Brightness out of range [-1.0, 1.0]: " ++ toString value] else []
     | none => [])
  let errors := errors ++
    (match s.contrast with
     | some value =>
       if ¬(0 ≤ value ∧ value ≤ 32) then
         ["Contrast out of range [0.0, 32.0]: " ++ toString value] else []
     | none => [])
  let errors := errors ++
    (match s.white_balance_gains with
     | some value =>
       if ¬(0 ≤ value.red ∧ value.red ≤ 32) then
         ["Red white-balance gain out of range [0.0, 32.0]: " ++ toString value.red] else []
     | none => [])
  let errors := errors ++
    (match s.white_balance_gains with
     | some value =>
       if ¬(0 ≤ value.blue ∧ value.blue ≤ 32) then
         ["Blue white-balance gain out of range [0.0, 32.0]: " ++ toString value.blue] else []
     | none => [])
  let errors := errors ++
    (match s.sharpness with
     | some value =>
       if ¬(0 ≤ value ∧ value ≤ 16) then
         ["Sharpness out of range [0.0, 16.0]: " ++ toString value] else []
     | none => [])
  let errors := errors ++
    (match s.jpeg_quality with
     | some value =>
       if ¬(0 ≤ value ∧ value ≤ 95) then
         ["JPEG quality out of range [0, 95]: " ++ toString value] else []
     | none => [])
  errors

/-- Check whether any values are non-none (hardware.py,
SettingsValues.has_values). -/
def has_values (s : SettingsValues) : Bool :=
  s.auto_exposure.isSome || s.exposure_time.isSome || s.frame_duration_limits.isSome ||
  s.image_gain.isSome || s.brightness.isSome || s.contrast.isSome ||
  s.auto_white_balance.isSome || s.white_balance_gains.isSome ||
  s.sharpness.isSome || s.jpeg_quality.isSome

/-- Field-level merge used by overlay: a present update value overwrites,
an absent one keeps the existing value. -/
def overlayField {α : Type} : Option α → Option α → Option α
  | some v, _ => some v
  | none, base => base

/-- Create a new instance where provided non-none values overwrite
existing values (hardware.py, SettingsValues.overlay). -/
def overlay (s updates : SettingsValues) : SettingsValues where
  auto_exposure := overlayField updates.auto_exposure s.auto_exposure
  exposure_time := overlayField updates.exposure_time s.exposure_time
  frame_duration_limits := overlayField updates.frame_duration_limits s.frame_duration_limits
  image_gain := overlayField updates.image_gain s.image_gain
  brightness := overlayField updates.brightness s.brightness
  contrast := overlayField updates.contrast s.contrast
  auto_white_balance := overlayField updates.auto_white_balance s.auto_white_balance
  white_balance_gains := overlayField updates.white_balance_gains s.white_balance_gains
  sharpness := overlayField updates.sharpness s.sharpness
  jpeg_quality := overlayField updates.jpeg_quality s.jpeg_quality

/-- Possible values passed to picamera2 camera controls. -/
inductive CtrlValue
  | boolVal (v : Bool)
  | intVal (v : ℤ)
  | ratVal (v : ℚ)
  | gainsVal (v : WhiteBalanceGains)
deriving DecidableEq

/-- Create an equivalent list of values for picamera2 camera controls,
dropping absent fields (hardware.py, SettingsValues.as_picamera2_controls).
The dict is modelled as an association list in the fixed key order of the
source dict literal. -/
def asPicamera2Controls (s : SettingsValues) : List (String × CtrlValue) :=
  (match s.auto_exposure with
   | some v => [("AeEnable", CtrlValue.boolVal v)] | none => []) ++
  (match s.exposure_time with
   | some v => [("ExposureTime", CtrlValue.intVal v)] | none => []) ++
  (match s.image_gain with
   | some v => [("AnalogueGain", CtrlValue.ratVal v)] | none => []) ++
  (match s.brightness with
   | some v => [("Brightness", CtrlValue.ratVal v)] | none => []) ++
  (match s.contrast with
   | some v => [("Contrast", CtrlValue.ratVal v)] | none => []) ++
  (match s.auto_white_balance with
   | some v => [("AwbEnable", CtrlValue.boolVal v)] | none => []) ++
  (match s.white_balance_gains with
   | some v => [("ColourGains", CtrlValue.gainsVal v)] | none => []) ++
  (match s.sharpness with
   | some v => [("Sharpness", CtrlValue.ratVal v)] | none => [])

/-- Create an equivalent list of values for picamera2 camera options,
dropping absent fields (hardware.py, SettingsValues.as_picamera2_options). -/
def asPicamera2Options (s : SettingsValues) : List (String × ℤ) :=
  match s.jpeg_quality with
  | some v => [("quality", v)]
  | none => []

end SettingsValues

/-! ### The PiCamera settings setter (adafruithat camera/hardware.py)

The PiCamera wrapper caches a SettingsValues and pushes committed values
to the picamera2 driver.  We record the driver interactions (set_controls
calls and per-key options writes) as event lists, since the driver itself
is an external collaborator.  Exceptions raised by the setter are modelled
as an error result; they occur before any state mutation in the source,
which the embedding reflects by only mutating on the success path.
-/

/-- Errors raised by the settings setter. -/
inductive SettingsError
  | runtimeNotStarted
  | invalidSettings (errors : List String)
deriving DecidableEq

/-- State of a PiCamera instance relevant to the settings setter:
whether the underlying picamera2 camera object exists (self._camera is
not None), the cached settings, and the record of pushes to the driver. -/
structure PiCameraState where
  cameraStarted : Bool
  cachedSettings : SettingsValues
  controlCalls : List (List (String × SettingsValues.CtrlValue)) := []
  optionWrites : List (String × ℤ) := []
deriving DecidableEq

/-- The settings property getter (hardware.py, PiCamera.settings):
returns the cached settings values. -/
def settingsGet (st : PiCameraState) : SettingsValues :=
  st.cachedSettings

/-- The settings property setter (hardware.py, PiCamera.settings setter).
Mirrors the source order: the no-op short-circuit for all-absent updates,
the camera-started check, then overlay, validation, and, only if
validation passes, the one-shot push of controls and options and the
commit of the merged cached settings. -/
def settingsSet (st : PiCameraState) (updates : SettingsValues) :
    PiCameraState × Option SettingsError :=
  if ¬updates.has_values then (st, none)
  else if ¬st.cameraStarted then (st, some SettingsError.runtimeNotStarted)
  else
    let new_values := st.cachedSettings.overlay updates
    let errors := new_values.validate
    if errors = [] then
      ({ st with
          controlCalls := st.controlCalls ++ [new_values.asPicamera2Controls],
          optionWrites := st.optionWrites ++ updates.asPicamera2Options,
          cachedSettings := new_values },
       none)
    else (st, some (SettingsError.invalidSettings errors))

/-! ### The latest-value preview buffer (adafruithat imagernew/streams.py)

LatestByteBuffer (identical to PreviewStream in camera/hardware.py) keeps
only the most recent byte buffer.  We embed its sequential semantics: the
value slot guarded by the reader-writer lock, with write replacing the
slot unconditionally and get returning the slot without waiting.  The
condition variable only provides wake-ups for wait_next and carries no
value, so it does not appear in the value semantics; get and write are
total functions, reflecting that neither blocks waiting for the other. -/

/-- State of a LatestByteBuffer: the latest buffer, or none if nothing was
written yet (streams.py, LatestByteBuffer.__init__). -/
structure LatestByteBuffer where
  latestBuffer : Option (List ℕ)
deriving DecidableEq

namespace LatestByteBuffer

/-- A freshly initialized stream holds no buffer. -/
def init : LatestByteBuffer := ⟨none⟩

/-- Write the byte buffer as the latest buffer in the stream, returning
the length of the buffer written (streams.py, LatestByteBuffer.write). -/
def write (_st : LatestByteBuffer) (buffer : List ℕ) : LatestByteBuffer × ℕ :=
  (⟨some buffer⟩, buffer.length)

/-- Return the latest buffer in the stream (streams.py,
LatestByteBuffer.get). -/
def get (st : LatestByteBuffer) : Option (List ℕ) :=
  st.latestBuffer

end LatestByteBuffer

/-! ### The pump RPC stub (pscopehat imagernew/, class MQTTPump)

MQTTPump serializes pump motions with a single-flight lock and signals
completion through a done event.  Two embeddings are given:

* receiveStatus embeds the body of the receiver loop for one incoming
  status message; releasing a Python threading.Lock that is not held
  raises a RuntimeError, which the embedding models by making the raw
  release partial, so the guard in the source is what makes the handler
  total;
* a small-step interleaving system with two caller threads running
  run_discrete plus the receiver, used for the serialization property.
-/

/-- Release of a raw Python threading.Lock: succeeds (leaving the lock
unheld) when held, raises a RuntimeError when not held. -/
def lockRelease : Bool → Except String Bool
  | true => Except.ok false
  | false => Except.error "release unlocked lock"

/-- State of the MQTTPump client relevant to its receiver thread. -/
structure PumpClientState where
  discreteRunHeld : Bool
  doneSet : Bool
  subscribedPump : Bool
deriving DecidableEq

/-- Body of the receiver loop of MQTTPump for one received status payload
on topic status/pump (pscopehat imagernew/, MQTTPump._receive_messages):
statuses other than Done and Interrupted are ignored; otherwise the
client unsubscribes, sets the done event, and releases the single-flight
lock only after checking that it is currently held. -/
def receiveStatus (st : PumpClientState) (status : String) :
    Except String PumpClientState :=
  if status ≠ "Done" ∧ status ≠ "Interrupted" then Except.ok st
  else
    let st := { st with subscribedPump := false }
    let st := { st with doneSet := true }
    if st.discreteRunHeld then
      match lockRelease st.discreteRunHeld with
      | Except.ok l => Except.ok { st with discreteRunHeld := l }
      | Except.error e => Except.error e
    else Except.ok st

/-! ### Interleaving semantics of concurrent run_discrete calls

Two threads each make one MQTTPump.run_discrete call; the background
receiver thread processes pump status messages.  The observable events
are publishes of a move command to actuator/pump and the firing of the
done event by the receiver.  The receiver step processes the arrival of a
Done or Interrupted status from the pump process, which (per the pump
collaborator contract of the spec) answers exactly the outstanding move
commands, so the step is enabled only while a published move command has
not yet been answered.  The receiver handles one message atomically
here; between its done-set and its lock-release in the source, the only
actions other threads could take (returning from the done wait) commute
with the release, so the atomic step has the same reachable traces. -/

/-- Observable events of the pump RPC system, in chronological order:
a publish of a move command by a caller thread, or the receiver firing
the done event upon a completion status. -/
inductive PumpEvent
  | pub (i : Bool)
  | doneFire
deriving DecidableEq

/-- Program counter of a thread running MQTTPump.run_discrete, following
the source line by line: acquire the single-flight lock, clear the done
event, subscribe to status/pump, publish the move command, wait on the
done event. -/
inductive CallerPC
  | start
  | acquired
  | cleared
  | subscribed
  | waiting
  | finished
deriving DecidableEq

/-- Whether a caller is between acquiring the lock and publishing. -/
def CallerPC.isMid : CallerPC → Bool
  | CallerPC.acquired => true
  | CallerPC.cleared => true
  | CallerPC.subscribed => true
  | _ => false

/-- Global state of the interleaved pump RPC system: the single-flight
lock, the done event, the program counters of the two caller threads, and
the chronological event trace. -/
structure PumpSys where
  lock : Bool
  done : Bool
  pc1 : CallerPC
  pc2 : CallerPC
  trace : List PumpEvent
deriving DecidableEq

/-- Program counter of caller i. -/
def PumpSys.pcOf (s : PumpSys) (i : Bool) : CallerPC :=
  if i then s.pc1 else s.pc2

/-- Replace the program counter of caller i. -/
def PumpSys.withPc (s : PumpSys) (i : Bool) (pc : CallerPC) : PumpSys :=
  if i then { s with pc1 := pc } else { s with pc2 := pc }

/-- Number of published move commands in a trace. -/
def countPub (t : List PumpEvent) : ℕ :=
  (t.filter fun e => match e with | PumpEvent.pub _ => true | _ => false).length

/-- Number of done-event firings in a trace. -/
def countDone (t : List PumpEvent) : ℕ :=
  (t.filter fun e => match e with | PumpEvent.doneFire => true | _ => false).length

/-- Initial state: lock free, done unset, both callers before their
run_discrete call, empty trace. -/
def pumpInit : PumpSys :=
  { lock := false, done := false, pc1 := CallerPC.start, pc2 := CallerPC.start, trace := [] }

/-- One interleaved step of the pump RPC system. -/
inductive PumpStep : PumpSys → PumpSys → Prop
  | acquire (s : PumpSys) (i : Bool) :
      s.pcOf i = CallerPC.start → s.lock = false →
      PumpStep s { s.withPc i CallerPC.acquired with lock := true }
  | clearDone (s : PumpSys) (i : Bool) :
      s.pcOf i = CallerPC.acquired →
      PumpStep s { s.withPc i CallerPC.cleared with done := false }
  | subscribe (s : PumpSys) (i : Bool) :
      s.pcOf i = CallerPC.cleared →
      PumpStep s (s.withPc i CallerPC.subscribed)
  | publish (s : PumpSys) (i : Bool) :
      s.pcOf i = CallerPC.subscribed →
      PumpStep s { s.withPc i CallerPC.waiting with trace := s.trace ++ [PumpEvent.pub i] }
  | waitDone (s : PumpSys) (i : Bool) :
      s.pcOf i = CallerPC.waiting → s.done = true →
      PumpStep s (s.withPc i CallerPC.finished)
  | statusDone (s : PumpSys) :
      countDone s.trace < countPub s.trace →
      PumpStep s { s with trace := s.trace ++ [PumpEvent.doneFire], done := true, lock := false }

/-- States reachable from the initial pump RPC system state. -/
inductive PumpReachable : PumpSys → Prop
  | init : PumpReachable pumpInit
  | step {s s' : PumpSys} : PumpReachable s → PumpStep s s' → PumpReachable s'

/-- Scan a chronological trace keeping track of whether a publish is
currently allowed: a publish consumes the permission, a done-firing
restores it.  Returns none if a publish occurs without permission. -/
def scanPub : Bool → List PumpEvent → Option Bool
  | c, [] => some c
  | c, PumpEvent.pub _ :: rest => if c then scanPub false rest else none
  | _, PumpEvent.doneFire :: rest => scanPub true rest

/-! ### Acquisition start-up (pscopehat imagernew/, ImagerProcess)

Embedding of the command handling that starts a stop-flow acquisition:
parsing the image command, preparing the output directory, and the
update_config handler.  The filesystem is modelled as the list of
existing paths.  The stopflow module itself is not among the provided
sources; the constructor validation of its settings types is modelled
from the spec where noted. -/

/-- Pump direction enumeration (spec section 3, stopflow.PumpDirection;
its members FORWARD and BACKWARD are named in the source command
parser). -/
inductive PumpDirection
  | FORWARD
  | BACKWARD
deriving DecidableEq

/-- Parse a pump direction string against the enumeration members. -/
def PumpDirection.ofString : String → Option PumpDirection
  | "FORWARD" => some PumpDirection.FORWARD
  | "BACKWARD" => some PumpDirection.BACKWARD
  | _ => none

/-- Settings for a discrete pump motion. -/
structure DiscretePumpSettings where
  direction : PumpDirection
  flowrate : ℚ
  volume : ℚ
deriving DecidableEq

/-- Modelled from the spec: the stopflow module is not among the provided
sources; per spec section 3, DiscretePumpSettings requires flowrate > 0
and volume > 0, and its constructor raises ValueError otherwise (caught
by the command parser). -/
def mkDiscretePumpSettings (direction : PumpDirection) (flowrate volume : ℚ) :
    Option DiscretePumpSettings :=
  if 0 < flowrate ∧ 0 < volume then
    some { direction := direction, flowrate := flowrate, volume := volume }
  else none

/-- Settings for a stop-flow acquisition run. -/
structure StopflowSettings where
  total_images : ℤ
  stabilization_duration : ℚ
  pump : DiscretePumpSettings
deriving DecidableEq

/-- Modelled from the spec: the stopflow module is not among the provided
sources; per spec section 3, acquisition settings require
total_images >= 1 and stabilization_duration >= 0, and the constructor
raises ValueError otherwise (caught by the command parser). -/
def mkStopflowSettings (total_images : ℤ) (stabilization_duration : ℚ)
    (pump : DiscretePumpSettings) : Option StopflowSettings :=
  if 1 ≤ total_images ∧ 0 ≤ stabilization_duration then
    some { total_images := total_images, stabilization_duration := stabilization_duration,
           pump := pump }
  else none

/-- The metadata keys the acquisition-directory protocol reads.  The
stored configuration dict may hold further keys; only these three decide
the output path.  A missing key is an absent field. -/
structure Metadata where
  object_date : Option String := none
  sample_id : Option String := none
  acq_id : Option String := none
deriving DecidableEq

/-- Payload of a message on the imager command topic, with the fields the
embedded handlers read.  Values already carry their converted numeric
types; a field that fails numeric conversion in the source is treated as
absent here. -/
structure ImagerCommand where
  action : String
  nb_frame : Option ℤ := none
  sleep : Option ℚ := none
  volume : Option ℚ := none
  pump_direction : Option String := none
  pump_flowrate : Option ℚ := none
  config : Option Metadata := none
deriving DecidableEq

/-- Parse a command to start acquisition into stop-flow settings
(pscopehat imagernew/, _parse_acquisition_settings): all four required
fields must be present, the direction must name an enumeration member,
and the settings constructors must accept the values; the flowrate
defaults to 2. -/
def parseAcquisitionSettings (m : ImagerCommand) : Option StopflowSettings :=
  match m.nb_frame, m.sleep, m.volume, m.pump_direction with
  | some nb, some sl, some vol, some dirStr =>
    match PumpDirection.ofString dirStr with
    | none => none
    | some dir =>
      match mkDiscretePumpSettings dir (m.pump_flowrate.getD 2) vol with
      | none => none
      | some pump => mkStopflowSettings nb sl pump
  | _, _, _, _ => none

/-- The apostrophe character, as stripped from identifier strings. -/
def apostropheChar : Char := Char.ofNat 39

/-- Python str.strip applied with the apostrophe character: removes all
leading and trailing apostrophes. -/
def stripApostrophes (s : String) : String :=
  String.mk (((s.toList.dropWhile (· == apostropheChar)).reverse.dropWhile
    (· == apostropheChar)).reverse)

/-- Python str.replace applied with a single-character pattern: replace
every space character by an underscore. -/
def spacesToUnderscores (s : String) : String :=
  String.mk (s.toList.map fun c => if c == ' ' then '_' else c)

/-- Sanitization applied to the sample and acquisition identifiers:
replace spaces by underscores, then strip apostrophes. -/
def sanitizeId (s : String) : String :=
  stripApostrophes (spacesToUnderscores s)

/-- The output directory path for an acquisition, joined from the base
path, the object date, and the sanitized sample and acquisition ids
(pscopehat imagernew/, _initialize_acquisition_directory). -/
def acqDirPath (basePath od sid aid : String) : String :=
  basePath ++ "/" ++ od ++ "/" ++ sanitizeId sid ++ "/" ++ sanitizeId aid

/-- Outcome of preparing the acquisition directory: a raised ValueError
with its message (caught by the caller), a raised KeyError from direct
dict indexing of a missing sample or acquisition id (not caught), or
success with the computed path and the updated filesystem. -/
inductive InitDirOutcome
  | valueError (msg : String)
  | keyError
  | ok (path : String) (fs : List String)
deriving DecidableEq

/-- Make the directory where images will be saved (pscopehat imagernew/,
function _initialize_acquisition_directory): a missing object_date raises
ValueError "object_date is missing!"; an existing target path raises
ValueError "Chosen id are already in use!"; otherwise the directory is
created together with a metadata document and an integrity log (the
integrity module is external, so the integrity log is modelled as one
created file). -/
def setupAcquisitionDirectory (fs : List String) (basePath : String) (md : Metadata) :
    InitDirOutcome :=
  match md.object_date with
  | none => InitDirOutcome.valueError "object_date is missing!"
  | some od =>
    match md.sample_id, md.acq_id with
    | some sid, some aid =>
      let path := acqDirPath basePath od sid aid
      if path ∈ fs then InitDirOutcome.valueError "Chosen id are already in use!"
      else
        InitDirOutcome.ok path
          (fs ++ [path, path ++ "/metadata.json", path ++ "/integrity.check"])
    | _, _ => InitDirOutcome.keyError

/-- Result of handling an image command (pscopehat imagernew/,
ImagerProcess._start_acquisition): statuses published on the imager
status topic, move commands published to the pump actuator topic, whether
an acquisition routine thread was started, the resulting filesystem, and
whether the handler ended in an uncaught exception. -/
structure StartAcqResult where
  statusesPublished : List String
  pumpPublished : List String
  routineStarted : Bool
  fs : List String
  uncaughtError : Bool
deriving DecidableEq

/-- Handle a new imager command to start image acquisition (pscopehat
imagernew/, ImagerProcess._start_acquisition).  Status payloads are
modelled by their status string.  The metadata merged in by the source on
top of the stored configuration (local datetime, shutter speed, machine
identity) does not include the three path-deciding keys, so the stored
metadata is passed through.  When directory preparation raises
ValueError, the source publishes the configuration error and then reads
the never-assigned local variable output_path, raising an uncaught
UnboundLocalError; either way no routine is started and nothing is
published to the pump. -/
def startAcquisition (fs : List String) (md : Metadata) (m : ImagerCommand) :
    StartAcqResult :=
  match parseAcquisitionSettings m with
  | none =>
    { statusesPublished := ["Error"], pumpPublished := [], routineStarted := false,
      fs := fs, uncaughtError := false }
  | some _ =>
    match setupAcquisitionDirectory fs "/home/pi/data/img" md with
    | InitDirOutcome.valueError e =>
      { statusesPublished := ["Configuration update error: " ++ e], pumpPublished := [],
        routineStarted := false, fs := fs, uncaughtError := true }
    | InitDirOutcome.keyError =>
      { statusesPublished := [], pumpPublished := [], routineStarted := false,
        fs := fs, uncaughtError := true }
    | InitDirOutcome.ok _ fs' =>
      { statusesPublished := [], pumpPublished := [], routineStarted := true,
        fs := fs', uncaughtError := false }

/-- Handle a new imager command to update the configuration (pscopehat
imagernew/, ImagerProcess._update_metadata): while an acquisition routine
thread is alive the command is rejected with a Busy status and the stored
metadata is untouched; otherwise a missing config field is an error, and
a present config replaces the stored metadata. -/
def updateMetadata (routineActive : Bool) (md : Metadata) (m : ImagerCommand) :
    Metadata × List String :=
  if routineActive then (md, ["Busy"])
  else
    match m.config with
    | none => (md, ["Configuration message error"])
    | some cfg => (cfg, ["Config updated"])

/-! ### The camera settings worker (pscopehat imagernew/, class MQTTCamera)

In the pscopehat variant, settings commands on the imager command topic
are consumed by MQTTCamera, which runs its own MQTT receiver thread and
holds no reference to the acquisition routine.  Its per-setting handlers
update the worker fields and push values through the camera configurer
(pscopehat imagernew/camera.py, class Configurer), whose setters validate
ranges and raise ValueError on invalid values. -/

/-- State of the camera configurer: the exposure-time bounds reported by
the camera, and the control values pushed so far. -/
structure CameraControlsState where
  expMin : ℤ
  expMax : ℤ
  ctrlExposureTime : Option ℤ := none
  ctrlColourGains : Option (ℚ × ℚ) := none
  ctrlAnalogueGain : Option ℚ := none
  ctrlAwbMode : Option String := none
deriving DecidableEq

/-- Exposure-time setter (camera.py, Configurer.exposure_time setter):
values outside the camera-reported bounds raise ValueError. -/
def configurerSetExposureTime (c : CameraControlsState) (t : ℤ) :
    Except Unit CameraControlsState :=
  if t < c.expMin ∨ t > c.expMax then Except.error ()
  else Except.ok { c with ctrlExposureTime := some t }

/-- White-balance-gain setter (camera.py, Configurer.white_balance_gain
setter): each gain must lie within [0.0, 32.0]. -/
def configurerSetWhiteBalanceGain (c : CameraControlsState) (gain : ℚ × ℚ) :
    Except Unit CameraControlsState :=
  if (0 ≤ gain.1 ∧ gain.1 ≤ 32) ∧ (0 ≤ gain.2 ∧ gain.2 ≤ 32) then
    Except.ok { c with ctrlColourGains := some gain }
  else Except.error ()

/-- The white-balance modes accepted by the configurer (camera.py,
Configurer.white_balance setter). -/
def whiteBalanceModes : List String :=
  ["off", "auto", "tungsten", "fluorescent", "indoor", "daylight", "cloudy"]

/-- White-balance-mode setter (camera.py, Configurer.white_balance
setter): an unknown mode raises ValueError. -/
def configurerSetWhiteBalance (c : CameraControlsState) (mode : String) :
    Except Unit CameraControlsState :=
  if mode ∈ whiteBalanceModes then Except.ok { c with ctrlAwbMode := some mode }
  else Except.error ()

/-- Image-gain setter (camera.py, Configurer.image_gain setter): the gain
must lie within [1.0, 16.0]. -/
def configurerSetImageGain (c : CameraControlsState) (gain : ℚ) :
    Except Unit CameraControlsState :=
  if 1 ≤ gain ∧ gain ≤ 16 then Except.ok { c with ctrlAnalogueGain := some gain }
  else Except.error ()

/-- State of the MQTTCamera worker: the configurer state plus the cached
field values the per-setting handlers mutate. -/
structure CameraWorkerState where
  controls : CameraControlsState
  exposureTime : ℤ
  whiteBalanceGain : ℚ × ℚ
  whiteBalanceMode : String
  imageGain : ℚ
deriving DecidableEq

/-- Payload of a camera settings command, with the fields the handlers
read.  The white-balance-gain entry carries optional red and blue values
(before the division by 100 that the handler applies); the image-gain
entry carries an optional analog value. -/
structure CameraSettingsCommand where
  shutter_speed : Option ℤ := none
  white_balance_gain : Option (Option ℚ × Option ℚ) := none
  white_balance : Option String := none
  image_gain : Option (Option ℚ) := none
deriving DecidableEq

/-- Shutter-speed handler (pscopehat imagernew/,
MQTTCamera.__message_settings_ss): stores the requested exposure time
before pushing it through the configurer; on ValueError publishes the
shutter-speed error and re-raises (the Bool result is false when the
handler raised). -/
def messageSettingsSs (cs : CameraWorkerState) (ss : ℤ) :
    CameraWorkerState × List String × Bool :=
  let cs := { cs with exposureTime := ss }
  match configurerSetExposureTime cs.controls cs.exposureTime with
  | Except.ok c => ({ cs with controls := c }, [], true)
  | Except.error _ => (cs, ["Error: Shutter speed not valid"], false)

/-- White-balance-gain handler (pscopehat imagernew/,
MQTTCamera.__message_settings_wb_gain): updates each provided gain
(divided by 100) in the cached pair before pushing the pair through the
configurer. -/
def messageSettingsWbGain (cs : CameraWorkerState) (red blue : Option ℚ) :
    CameraWorkerState × List String × Bool :=
  let cs := match red with
    | some r => { cs with whiteBalanceGain := (r / 100, cs.whiteBalanceGain.2) }
    | none => cs
  let cs := match blue with
    | some b => { cs with whiteBalanceGain := (cs.whiteBalanceGain.1, b / 100) }
    | none => cs
  match configurerSetWhiteBalanceGain cs.controls cs.whiteBalanceGain with
  | Except.ok c => ({ cs with controls := c }, [], true)
  | Except.error _ => (cs, ["Error: White balance gain not valid"], false)

/-- White-balance-mode handler (pscopehat imagernew/,
MQTTCamera.__message_settings_wb).  The error status text in the source
is a malformed f-string; it is modelled by its intended message. -/
def messageSettingsWb (cs : CameraWorkerState) (mode : String) :
    CameraWorkerState × List String × Bool :=
  let cs := { cs with whiteBalanceMode := mode }
  match configurerSetWhiteBalance cs.controls cs.whiteBalanceMode with
  | Except.ok c => ({ cs with controls := c }, [], true)
  | Except.error _ => (cs, ["Error: Invalid white balance mode"], false)

/-- Image-gain handler (pscopehat imagernew/,
MQTTCamera.__message_settings_image_gain): a provided analog value
replaces the cached gain; the cached gain is pushed through the
configurer either way. -/
def messageSettingsImageGain (cs : CameraWorkerState) (analog : Option ℚ) :
    CameraWorkerState × List String × Bool :=
  let cs := match analog with
    | some g => { cs with imageGain := g }
    | none => cs
  match configurerSetImageGain cs.controls cs.imageGain with
  | Except.ok c => ({ cs with controls := c }, [], true)
  | Except.error _ => (cs, ["Error: Image gain not valid"], false)

/-- Handle a settings command in the camera worker (pscopehat imagernew/,
MQTTCamera._receive_messages, action settings): a payload without the
settings field is a settings error; otherwise the four per-setting
handlers run in source order, a raised ValueError aborting the remaining
ones without a success status; if none raises, the updated status is
published. -/
def cameraReceiveSettings (cs : CameraWorkerState)
    (payload : Option CameraSettingsCommand) : CameraWorkerState × List String :=
  match payload with
  | none => (cs, ["Camera settings error"])
  | some cmd =>
    let step1 := match cmd.shutter_speed with
      | some ss => messageSettingsSs cs ss
      | none => (cs, [], true)
    match step1 with
    | (cs, pubs1, false) => (cs, pubs1)
    | (cs, pubs1, true) =>
      let step2 := match cmd.white_balance_gain with
        | some (r, b) => messageSettingsWbGain cs r b
        | none => (cs, [], true)
      match step2 with
      | (cs, pubs2, false) => (cs, pubs1 ++ pubs2)
      | (cs, pubs2, true) =>
        let step3 := match cmd.white_balance with
          | some mode => messageSettingsWb cs mode
          | none => (cs, [], true)
        match step3 with
        | (cs, pubs3, false) => (cs, pubs1 ++ pubs2 ++ pubs3)
        | (cs, pubs3, true) =>
          let step4 := match cmd.image_gain with
            | some analog => messageSettingsImageGain cs analog
            | none => (cs, [], true)
          match step4 with
          | (cs, pubs4, false) => (cs, pubs1 ++ pubs2 ++ pubs3 ++ pubs4)
          | (cs, pubs4, true) =>
            (cs, pubs1 ++ pubs2 ++ pubs3 ++ pubs4 ++ ["Camera settings updated"])

/-- Dispatch of a settings command in the pscopehat process: the camera
worker consumes it on its own receiver thread, which holds no reference
to the acquisition routine, so the handling is the same whether or not a
routine is active. -/
def systemReceiveSettings (_routineActive : Bool) (cs : CameraWorkerState)
    (payload : Option CameraSettingsCommand) : CameraWorkerState × List String :=
  cameraReceiveSettings cs payload

/-! ### The stop-flow capture step (adafruithat imagernew/, ImagerProcess)

Embedding of the capture state of the stop-flow state machine, together
with its error handler.  The camera capture and the integrity-log append
are external calls whose success or failure is the input of the step;
published statuses and pump move commands are returned alongside the new
state.  Timestamps and sleeps are not part of the value semantics; the
capture filename is a parameter. -/

/-- States of the imager state machine (adafruithat
imagernew/state_machine, as used by the imager process). -/
inductive ImagerSMState
  | stop
  | imaging
  | waiting
  | capture
deriving DecidableEq

/-- State of the adafruithat imager process relevant to one capture step:
the per-run counters, the consecutive-error counter, the machine state,
and the pump parameters of the run. -/
structure AdaImagerState where
  imgDone : ℤ
  imgGoal : ℤ
  errorStreak : ℤ
  smState : ImagerSMState
  pumpDirection : String
  pumpVolume : ℚ
deriving DecidableEq

/-- A move command published to the pump actuator topic (adafruithat
imagernew/, ImagerProcess.__pump_message): direction and volume from the
run, flowrate fixed at 2. -/
structure PumpCommand where
  direction : String
  volume : ℚ
  flowrate : ℚ
deriving DecidableEq

/-- The pump message the imager sends between captures. -/
def pumpMessage (st : AdaImagerState) : PumpCommand :=
  { direction := st.pumpDirection, volume := st.pumpVolume, flowrate := 2 }

/-- Handle a capture error (adafruithat imagernew/,
ImagerProcess.__capture_error): on a repeated error (nonzero error
counter, by Python truthiness) publish the hard failure, reset the
counters, and stop; on a first error increment the error counter and
publish the retry notice, leaving the machine state unchanged so the
capture state runs again.  The error text interpolated into the retry
status is elided, as the source f-string is malformed there. -/
def captureError (st : AdaImagerState) (_message : String) :
    AdaImagerState × List String :=
  if st.errorStreak ≠ 0 then
    ({ st with imgDone := 0, imgGoal := 0, errorStreak := 0, smState := ImagerSMState.stop },
     ["Image " ++ toString (st.imgDone + 1) ++ "/" ++ toString st.imgGoal ++
       " WAS NOT CAPTURED! STOPPING THE PROCESS!"])
  else
    ({ st with errorStreak := st.errorStreak + 1 },
     ["Image " ++ toString (st.imgDone + 1) ++ "/" ++ toString st.imgGoal ++
       " was not captured due to this error! Retrying once!"])

/-- Outcome of the external calls of one capture attempt: the capture and
the integrity append both succeed, the capture times out, or the captured
file is missing when appended to the integrity log. -/
inductive CaptureOutcome
  | captured
  | timeout
  | fileMissing
deriving DecidableEq

/-- One run of the capture state (adafruithat imagernew/,
ImagerProcess.__state_capture): a timeout or a missing file goes to the
error handler; on success the saved status is published, the image
counter is incremented and the error counter reset, and then either the
run completes (counter reset to zero, Done published, machine stopped) or
the next pump move is published and the machine waits for the pump. -/
def stateCapture (st : AdaImagerState) (filename : String) (outcome : CaptureOutcome) :
    AdaImagerState × List String × List PumpCommand :=
  match outcome with
  | CaptureOutcome.timeout =>
    let r := captureError st "timeout during capture"
    (r.1, r.2, [])
  | CaptureOutcome.fileMissing =>
    let r := captureError st (filename ++ " was not found")
    (r.1, r.2, [])
  | CaptureOutcome.captured =>
    let savedMsg := "Image " ++ toString (st.imgDone + 1) ++ "/" ++ toString st.imgGoal ++
      " saved to " ++ filename
    let st := { st with imgDone := st.imgDone + 1, errorStreak := 0 }
    if st.imgDone ≥ st.imgGoal then
      ({ st with imgDone := 0, smState := ImagerSMState.stop }, [savedMsg, "Done"], [])
    else
      ({ st with smState := ImagerSMState.waiting }, [savedMsg], [pumpMessage st])

/-! ### Properties of the settings value object and the settings setter -/

/-- A settings value with no present fields is the all-absent value. -/
theorem eq_default_of_not_hasValues (s : SettingsValues) (h : s.has_values = false) :
    s = {} := by
  cases s with
  | mk ae et fdl ig br ct awb wbg sh jq =>
    simp only [SettingsValues.has_values] at h
    simp at h
    obtain ⟨⟨⟨⟨⟨⟨⟨⟨⟨h1, h2⟩, h3⟩, h4⟩, h5⟩, h6⟩, h7⟩, h8⟩, h9⟩, h10⟩ := h
    subst h1 h2 h3 h4 h5 h6 h7 h8 h9 h10
    rfl

/-- Overlaying a field twice with the same update is the same as once. -/
theorem overlayField_idem {α : Type} (a b : Option α) :
    SettingsValues.overlayField a (SettingsValues.overlayField a b) =
      SettingsValues.overlayField a b := by
  cases a <;> rfl

/-- The merge contract for one field: the result equals the update where
the update is present, and the base value where it is absent. -/
def overlaidField {α : Type} (base upd res : Option α) : Prop :=
  (∀ v, upd = some v → res = some v) ∧ (upd = none → res = base)

/-- The field-level overlay satisfies the merge contract. -/
theorem overlaidField_overlayField {α : Type} (base upd : Option α) :
    overlaidField base upd (SettingsValues.overlayField upd base) := by
  cases upd with
  | none => exact ⟨fun v h => (nomatch h), fun _ => rfl⟩
  | some v => exact ⟨fun w h => by rw [← h]; rfl, fun h => (nomatch h)⟩

/-- The merge contract for a whole settings update: after running the
settings setter, every visible field equals the update value where the
update field is present, and the prior cached value where it is absent. -/
def mergeCorrectAfter (st : PiCameraState) (u : SettingsValues) : Prop :=
  overlaidField st.cachedSettings.auto_exposure u.auto_exposure
    (settingsGet (settingsSet st u).1).auto_exposure ∧
  overlaidField st.cachedSettings.exposure_time u.exposure_time
    (settingsGet (settingsSet st u).1).exposure_time ∧
  overlaidField st.cachedSettings.frame_duration_limits u.frame_duration_limits
    (settingsGet (settingsSet st u).1).frame_duration_limits ∧
  overlaidField st.cachedSettings.image_gain u.image_gain
    (settingsGet (settingsSet st u).1).image_gain ∧
  overlaidField st.cachedSettings.brightness u.brightness
    (settingsGet (settingsSet st u).1).brightness ∧
  overlaidField st.cachedSettings.contrast u.contrast
    (settingsGet (settingsSet st u).1).contrast ∧
  overlaidField st.cachedSettings.auto_white_balance u.auto_white_balance
    (settingsGet (settingsSet st u).1).auto_white_balance ∧
  overlaidField st.cachedSettings.white_balance_gains u.white_balance_gains
    (settingsGet (settingsSet st u).1).white_balance_gains ∧
  overlaidField st.cachedSettings.sharpness u.sharpness
    (settingsGet (settingsSet st u).1).sharpness ∧
  overlaidField st.cachedSettings.jpeg_quality u.jpeg_quality
    (settingsGet (settingsSet st u).1).jpeg_quality

/-- C1: for every cached SettingsValues and every update whose merged
result passes validation, committing the update through the settings
setter (with the camera started) succeeds, and every subsequently visible
field equals the update value where the update field is present, and the
prior cached value where it is absent. -/
theorem settings_merge_correct (st : PiCameraState) (u : SettingsValues)
    (hstart : st.cameraStarted = true)
    (hvalid : (st.cachedSettings.overlay u).validate = []) :
    (settingsSet st u).2 = none ∧ mergeCorrectAfter st u := by
  by_cases hv : u.has_values = true
  · have hset : settingsSet st u =
        ({ st with
            controlCalls := st.controlCalls ++ [(st.cachedSettings.overlay u).asPicamera2Controls],
            optionWrites := st.optionWrites ++ u.asPicamera2Options,
            cachedSettings := st.cachedSettings.overlay u },
         none) := by
      simp [settingsSet, hv, hstart, hvalid]
    refine ⟨by rw [hset], ?_⟩
    unfold mergeCorrectAfter settingsGet
    rw [hset]
    exact ⟨overlaidField_overlayField _ _, overlaidField_overlayField _ _,
      overlaidField_overlayField _ _, overlaidField_overlayField _ _,
      overlaidField_overlayField _ _, overlaidField_overlayField _ _,
      overlaidField_overlayField _ _, overlaidField_overlayField _ _,
      overlaidField_overlayField _ _, overlaidField_overlayField _ _⟩
  · have hv' : u.has_values = false := by simpa using hv
    have hu : u = {} := eq_default_of_not_hasValues u hv'
    subst hu
    have hset : settingsSet st {} = (st, none) := by
      simp [settingsSet, SettingsValues.has_values]
    refine ⟨by rw [hset], ?_⟩
    unfold mergeCorrectAfter settingsGet
    rw [hset]
    exact ⟨overlaidField_overlayField _ _, overlaidField_overlayField _ _,
      overlaidField_overlayField _ _, overlaidField_overlayField _ _,
      overlaidField_overlayField _ _, overlaidField_overlayField _ _,
      overlaidField_overlayField _ _, overlaidField_overlayField _ _,
      overlaidField_overlayField _ _, overlaidField_overlayField _ _⟩

/-- Concrete camera state for the C1 witness. -/
def c1State : PiCameraState :=
  { cameraStarted := true, cachedSettings := { exposure_time := some 125 } }

/-- Concrete settings update for the C1 witness. -/
def c1Update : SettingsValues :=
  { brightness := some 0, jpeg_quality := some 80 }

/-- C1 witness: the merge-correctness theorem applied at a concrete
started camera and a concrete valid update. -/
theorem settings_merge_correct_witness :
    c1State.cameraStarted = true ∧
    (c1State.cachedSettings.overlay c1Update).validate = [] ∧
    ((settingsSet c1State c1Update).2 = none ∧ mergeCorrectAfter c1State c1Update) :=
  ⟨rfl, by decide, settings_merge_correct c1State c1Update rfl (by decide)⟩

/-- Concrete camera state for the C2 counterexample: the cached settings
are out of range while the update has no present fields. -/
def c2NoopState : PiCameraState :=
  { cameraStarted := true, cachedSettings := { image_gain := some (-1) } }

/-- C2 counterexample: with an all-absent update over an out-of-range
cached value, the merged result fails validation, yet the setter returns
without raising any error, because the no-op short-circuit runs before
validation; so the claim that every update whose merged result fails
validation is rejected with an error is false as stated. -/
theorem settings_reject_counterexample :
    (c2NoopState.cachedSettings.overlay {}).validate ≠ [] ∧
    settingsSet c2NoopState {} = (c2NoopState, none) := by
  exact ⟨by decide, rfl⟩

/-- C2 (amended): for every cached SettingsValues and every update whose
merged result fails validation, the setter leaves the whole camera state
(cached settings, control pushes, option writes) unchanged; and whenever
the update has at least one present field and the camera is started, it
rejects the update with a ValueError carrying exactly the validation
violations. -/
theorem settings_reject_atomic (st : PiCameraState) (u : SettingsValues)
    (hnon : (st.cachedSettings.overlay u).validate ≠ []) :
    (settingsSet st u).1 = st ∧
    (u.has_values = true → st.cameraStarted = true →
      (settingsSet st u).2 =
        some (SettingsError.invalidSettings ((st.cachedSettings.overlay u).validate))) := by
  by_cases hv : u.has_values = true
  · by_cases hstart : st.cameraStarted = true
    · have hset : settingsSet st u =
          (st, some (SettingsError.invalidSettings ((st.cachedSettings.overlay u).validate))) := by
        simp [settingsSet, hv, hstart, hnon]
      exact ⟨by rw [hset], fun _ _ => by rw [hset]⟩
    · have hstart' : st.cameraStarted = false := by simpa using hstart
      have hset : settingsSet st u = (st, some SettingsError.runtimeNotStarted) := by
        simp [settingsSet, hv, hstart']
      exact ⟨by rw [hset], fun _ h => absurd h hstart⟩
  · have hv' : u.has_values = false := by simpa using hv
    have hset : settingsSet st u = (st, none) := by
      simp [settingsSet, hv']
    exact ⟨by rw [hset], fun h _ => absurd h hv⟩

/-- Concrete camera state for the C2 witness. -/
def c2RejectState : PiCameraState :=
  { cameraStarted := true, cachedSettings := {} }

/-- Concrete out-of-range settings update for the C2 witness. -/
def c2RejectUpdate : SettingsValues :=
  { image_gain := some 20 }

/-- C2 witness: the amended rejection theorem applied at a concrete
started camera and a concrete out-of-range update. -/
theorem settings_reject_atomic_witness :
    (c2RejectState.cachedSettings.overlay c2RejectUpdate).validate ≠ [] ∧
    (settingsSet c2RejectState c2RejectUpdate).1 = c2RejectState ∧
    (settingsSet c2RejectState c2RejectUpdate).2 =
      some (SettingsError.invalidSettings
        ((c2RejectState.cachedSettings.overlay c2RejectUpdate).validate)) :=
  ⟨by decide,
   (settings_reject_atomic c2RejectState c2RejectUpdate (by decide)).1,
   (settings_reject_atomic c2RejectState c2RejectUpdate (by decide)).2 rfl rfl⟩

/-- C9: assigning a settings value with no present fields through the
settings setter returns immediately without any error and without
changing any state, for every camera state, including one where the
camera has not been started: the no-op short-circuit precedes the
camera-not-started check. -/
theorem settings_noop_short_circuit (st : PiCameraState) (u : SettingsValues)
    (h : u.has_values = false) :
    settingsSet st u = (st, none) := by
  simp [settingsSet, h]

/-- Concrete unstarted camera state for the C9 witness. -/
def c9State : PiCameraState :=
  { cameraStarted := false, cachedSettings := {} }

/-- C9 witness: the no-op theorem applied at a concrete camera state that
has not been started, with the all-absent update. -/
theorem settings_noop_short_circuit_witness :
    SettingsValues.has_values {} = false ∧ settingsSet c9State {} = (c9State, none) :=
  ⟨rfl, settings_noop_short_circuit c9State {} rfl⟩

/-- C10: overlaying the all-absent settings value is an identity, and
overlay is idempotent in its update. -/
theorem overlay_identity_idempotent (s u : SettingsValues) :
    s.overlay {} = s ∧ (s.overlay u).overlay u = s.overlay u := by
  constructor
  · rfl
  · simp [SettingsValues.overlay, overlayField_idem]

/-! ### Latest-wins delivery of the preview buffer -/

/-- C3: for the latest-value channel, if the producer writes v1 and then
v2 before any reader gets, every subsequent get returns v2 and (for
distinct buffers) never v1; a get before any write returns none.  The
embedded get is a total function of the state, reflecting that it never
blocks waiting for a write. -/
theorem latest_value_latest_wins (st : LatestByteBuffer) (v1 v2 : List ℕ)
    (hne : v1 ≠ v2) :
    LatestByteBuffer.get (LatestByteBuffer.write (LatestByteBuffer.write st v1).1 v2).1 =
        some v2 ∧
    LatestByteBuffer.get (LatestByteBuffer.write (LatestByteBuffer.write st v1).1 v2).1 ≠
        some v1 ∧
    LatestByteBuffer.get LatestByteBuffer.init = none := by
  refine ⟨rfl, ?_, rfl⟩
  intro h
  exact hne (by simpa [LatestByteBuffer.get, LatestByteBuffer.write] using h.symm)

/-- C3 witness: latest-wins at two concrete distinct buffers. -/
theorem latest_value_latest_wins_witness :
    ([0] : List ℕ) ≠ [1] ∧
    (LatestByteBuffer.get
        (LatestByteBuffer.write (LatestByteBuffer.write LatestByteBuffer.init [0]).1 [1]).1 =
        some [1] ∧
     LatestByteBuffer.get
        (LatestByteBuffer.write (LatestByteBuffer.write LatestByteBuffer.init [0]).1 [1]).1 ≠
        some [0] ∧
     LatestByteBuffer.get LatestByteBuffer.init = none) :=
  ⟨by decide, latest_value_latest_wins LatestByteBuffer.init [0] [1] (by decide)⟩

/-! ### Idempotent completion handling in the pump RPC receiver -/

/-- C5: when the receiver thread processes a Done or Interrupted status,
it unsubscribes, sets the done signal, and releases the single-flight
mutex only when that mutex is currently held; in particular a completion
status arriving while the mutex is not held produces no release error and
leaves the mutex unlocked.  The raw lock release is partial (releasing an
unheld Python lock raises RuntimeError), so the Except.ok result shows
the guarded release never double-releases. -/
theorem pump_status_release_if_held (st : PumpClientState) (status : String)
    (h : status = "Done" ∨ status = "Interrupted") :
    receiveStatus st status =
      Except.ok { discreteRunHeld := false, doneSet := true, subscribedPump := false } := by
  have hcond : ¬(status ≠ "Done" ∧ status ≠ "Interrupted") := by
    rcases h with h | h <;> simp [h]
  cases hheld : st.discreteRunHeld <;>
    simp [receiveStatus, hcond, hheld, lockRelease]

/-- Concrete pump client state for the C5 witness: the mutex is not held
when a spurious Done status arrives. -/
def c5Spurious : PumpClientState :=
  { discreteRunHeld := false, doneSet := false, subscribedPump := true }

/-- C5 witness: the release-if-held theorem applied to a Done status that
arrives while no run is in flight. -/
theorem pump_status_release_if_held_witness :
    (("Done" : String) = "Done" ∨ ("Done" : String) = "Interrupted") ∧
    receiveStatus c5Spurious "Done" =
      Except.ok { discreteRunHeld := false, doneSet := true, subscribedPump := false } :=
  ⟨Or.inl rfl, pump_status_release_if_held c5Spurious "Done" (Or.inl rfl)⟩

/-! ### Aborting on an output-directory collision -/

/-- C6: for every image command that parses to valid acquisition settings
and whose computed output directory already exists, the handler starts no
acquisition routine, publishes nothing to the pump actuator topic,
publishes a status reporting the identifier collision, and leaves the
filesystem unchanged.  Pump move commands are only ever published by a
started routine, so no pumping occurs before the existence check. -/
theorem image_command_collision_aborts (fs : List String) (md : Metadata)
    (m : ImagerCommand) (s : StopflowSettings) (od sid aid : String)
    (hparse : parseAcquisitionSettings m = some s)
    (hod : md.object_date = some od) (hsid : md.sample_id = some sid)
    (haid : md.acq_id = some aid)
    (hexists : acqDirPath "/home/pi/data/img" od sid aid ∈ fs) :
    (startAcquisition fs md m).routineStarted = false ∧
    (startAcquisition fs md m).pumpPublished = [] ∧
    (startAcquisition fs md m).statusesPublished =
      ["Configuration update error: Chosen id are already in use!"] ∧
    (startAcquisition fs md m).fs = fs := by
  have hsetup : setupAcquisitionDirectory fs "/home/pi/data/img" md =
      InitDirOutcome.valueError "Chosen id are already in use!" := by
    simp [setupAcquisitionDirectory, hod, hsid, haid, hexists]
  simp [startAcquisition, hparse, hsetup]

/-- Concrete stored metadata for the C6 witness. -/
def c6Meta : Metadata :=
  { object_date := some "2024-06-01", sample_id := some "s1", acq_id := some "a1" }

/-- Concrete filesystem for the C6 witness: the computed acquisition
directory already exists. -/
def c6Fs : List String :=
  [acqDirPath "/home/pi/data/img" "2024-06-01" "s1" "a1"]

/-- Concrete image command for the C6 witness. -/
def c6Cmd : ImagerCommand :=
  { action := "image", nb_frame := some 1, sleep := some 0, volume := some 1,
    pump_direction := some "FORWARD" }

/-- Concrete parsed settings for the C6 witness. -/
def c6Settings : StopflowSettings :=
  { total_images := 1, stabilization_duration := 0,
    pump := { direction := PumpDirection.FORWARD, flowrate := 2, volume := 1 } }

/-- C6 witness: the collision theorem applied at a concrete command whose
output directory exists. -/
theorem image_command_collision_aborts_witness :
    parseAcquisitionSettings c6Cmd = some c6Settings ∧
    acqDirPath "/home/pi/data/img" "2024-06-01" "s1" "a1" ∈ c6Fs ∧
    ((startAcquisition c6Fs c6Meta c6Cmd).routineStarted = false ∧
     (startAcquisition c6Fs c6Meta c6Cmd).pumpPublished = [] ∧
     (startAcquisition c6Fs c6Meta c6Cmd).statusesPublished =
       ["Configuration update error: Chosen id are already in use!"] ∧
     (startAcquisition c6Fs c6Meta c6Cmd).fs = c6Fs) :=
  ⟨by decide, by decide,
   image_command_collision_aborts c6Fs c6Meta c6Cmd c6Settings "2024-06-01" "s1" "a1"
     (by decide) rfl rfl rfl (by decide)⟩

/-! ### Retry policy of the stop-flow capture step -/

/-- Concrete capture state for the C7 counterexample: the next successful
capture is the last one of the run. -/
def c7FinalState : AdaImagerState :=
  { imgDone := 0, imgGoal := 1, errorStreak := 0, smState := ImagerSMState.capture,
    pumpDirection := "FORWARD", pumpVolume := 1 }

/-- C7 counterexample: when a capture success reaches the goal, the
image counter is reset to zero as the run completes, so the claim that a
capture success increments the captured-image counter is false as stated
at this input (the counter goes from 0 back to 0 while the run of goal 1
completes). -/
theorem capture_success_counter_counterexample :
    (stateCapture c7FinalState "img.jpg" CaptureOutcome.captured).1.imgDone ≠
      c7FinalState.imgDone + 1 ∧
    (stateCapture c7FinalState "img.jpg" CaptureOutcome.captured).1.imgDone = 0 ∧
    "Done" ∈ (stateCapture c7FinalState "img.jpg" CaptureOutcome.captured).2.1 := by
  refine ⟨?_, ?_, ?_⟩ <;> decide

/-- C7 (amended): in the stop-flow capture step, a first capture failure
increments the consecutive-error counter, keeps the machine in the
capture state so the same frame's capture is retried without re-running
the pump, and leaves the image counter unchanged; a capture success
resets the consecutive-error counter to zero and increments the image
counter, except that when the incremented counter reaches the goal the
run completes, publishing Done and resetting the counter to zero; a
second consecutive failure aborts the run with a hard-failure status,
without incrementing the image counter (it is reset to zero), and without
publishing any pump command. -/
theorem capture_retry_policy (st : AdaImagerState) (filename : String)
    (outcome : CaptureOutcome) :
    (st.errorStreak = 0 → outcome ≠ CaptureOutcome.captured →
      (stateCapture st filename outcome).1.errorStreak = st.errorStreak + 1 ∧
      (stateCapture st filename outcome).1.imgDone = st.imgDone ∧
      (stateCapture st filename outcome).1.smState = st.smState ∧
      (stateCapture st filename outcome).2.2 = []) ∧
    (outcome = CaptureOutcome.captured →
      (stateCapture st filename outcome).1.errorStreak = 0 ∧
      (st.imgDone + 1 < st.imgGoal →
        (stateCapture st filename outcome).1.imgDone = st.imgDone + 1) ∧
      (st.imgGoal ≤ st.imgDone + 1 →
        (stateCapture st filename outcome).1.imgDone = 0 ∧
        (stateCapture st filename outcome).1.smState = ImagerSMState.stop ∧
        "Done" ∈ (stateCapture st filename outcome).2.1)) ∧
    (st.errorStreak ≠ 0 → outcome ≠ CaptureOutcome.captured →
      (stateCapture st filename outcome).1.smState = ImagerSMState.stop ∧
      (stateCapture st filename outcome).1.imgDone = 0 ∧
      ("Image " ++ toString (st.imgDone + 1) ++ "/" ++ toString st.imgGoal ++
        " WAS NOT CAPTURED! STOPPING THE PROCESS!") ∈
        (stateCapture st filename outcome).2.1 ∧
      (stateCapture st filename outcome).2.2 = []) := by
  refine ⟨?_, ?_, ?_⟩
  · intro hz hnc
    cases outcome with
    | captured => exact absurd rfl hnc
    | timeout => simp [stateCapture, captureError, hz]
    | fileMissing => simp [stateCapture, captureError, hz]
  · intro hc
    subst hc
    by_cases hgoal : st.imgDone + 1 ≥ st.imgGoal
    · have hlt : ¬(st.imgDone + 1 < st.imgGoal) := not_lt.mpr hgoal
      refine ⟨?_, fun h => absurd h hlt, fun _ => ?_⟩ <;>
        simp [stateCapture, hgoal]
    · have hgoal' : ¬(st.imgGoal ≤ st.imgDone + 1) := hgoal
      have hlt : st.imgDone + 1 < st.imgGoal := not_le.mp hgoal
      refine ⟨?_, fun _ => ?_, fun h => absurd h hgoal'⟩ <;>
        simp [stateCapture, hgoal]
  · intro hnz hnc
    cases outcome with
    | captured => exact absurd rfl hnc
    | timeout => simp [stateCapture, captureError, hnz]
    | fileMissing => simp [stateCapture, captureError, hnz]

/-- Concrete capture state for the C7 witness retry case. -/
def c7RetryState : AdaImagerState :=
  { imgDone := 2, imgGoal := 5, errorStreak := 0, smState := ImagerSMState.capture,
    pumpDirection := "FORWARD", pumpVolume := 1 }

/-- Concrete capture state for the C7 witness abort case. -/
def c7AbortState : AdaImagerState :=
  { imgDone := 2, imgGoal := 5, errorStreak := 1, smState := ImagerSMState.capture,
    pumpDirection := "FORWARD", pumpVolume := 1 }

/-- C7 witness: the retry-policy theorem applied at concrete states for
all three cases: a first failure, a non-final success, and a second
consecutive failure. -/
theorem capture_retry_policy_witness :
    ((stateCapture c7RetryState "f.jpg" CaptureOutcome.timeout).1.errorStreak =
        c7RetryState.errorStreak + 1 ∧
      (stateCapture c7RetryState "f.jpg" CaptureOutcome.timeout).1.imgDone =
        c7RetryState.imgDone ∧
      (stateCapture c7RetryState "f.jpg" CaptureOutcome.timeout).1.smState =
        c7RetryState.smState ∧
      (stateCapture c7RetryState "f.jpg" CaptureOutcome.timeout).2.2 = []) ∧
    ((stateCapture c7RetryState "f.jpg" CaptureOutcome.captured).1.errorStreak = 0 ∧
      (stateCapture c7RetryState "f.jpg" CaptureOutcome.captured).1.imgDone =
        c7RetryState.imgDone + 1) ∧
    ((stateCapture c7AbortState "f.jpg" CaptureOutcome.timeout).1.smState =
        ImagerSMState.stop ∧
      (stateCapture c7AbortState "f.jpg" CaptureOutcome.timeout).1.imgDone = 0 ∧
      (stateCapture c7AbortState "f.jpg" CaptureOutcome.timeout).2.2 = []) :=
  ⟨(capture_retry_policy c7RetryState "f.jpg" CaptureOutcome.timeout).1 rfl (by decide),
   ⟨((capture_retry_policy c7RetryState "f.jpg" CaptureOutcome.captured).2.1 rfl).1,
    ((capture_retry_policy c7RetryState "f.jpg" CaptureOutcome.captured).2.1 rfl).2.1
      (by decide)⟩,
   ⟨((capture_retry_policy c7AbortState "f.jpg" CaptureOutcome.timeout).2.2 (by decide)
      (by decide)).1,
    ((capture_retry_policy c7AbortState "f.jpg" CaptureOutcome.timeout).2.2 (by decide)
      (by decide)).2.1,
    ((capture_retry_policy c7AbortState "f.jpg" CaptureOutcome.timeout).2.2 (by decide)
      (by decide)).2.2.2⟩⟩

/-! ### Busy rejection of conflicting commands -/

/-- The shutter-speed handler publishes at most its own error status. -/
theorem messageSettingsSs_pubs (cs : CameraWorkerState) (ss : ℤ) :
    (messageSettingsSs cs ss).2.1 = [] ∨
      (messageSettingsSs cs ss).2.1 = ["Error: Shutter speed not valid"] := by
  cases hx : configurerSetExposureTime cs.controls ss <;>
    simp [messageSettingsSs, hx]

/-- The white-balance-gain handler publishes at most its own error
status. -/
theorem messageSettingsWbGain_pubs (cs : CameraWorkerState) (red blue : Option ℚ) :
    (messageSettingsWbGain cs red blue).2.1 = [] ∨
      (messageSettingsWbGain cs red blue).2.1 = ["Error: White balance gain not valid"] := by
  unfold messageSettingsWbGain
  cases red <;> cases blue <;> dsimp only <;> all_goals split <;> simp

/-- The white-balance-mode handler publishes at most its own error
status. -/
theorem messageSettingsWb_pubs (cs : CameraWorkerState) (mode : String) :
    (messageSettingsWb cs mode).2.1 = [] ∨
      (messageSettingsWb cs mode).2.1 = ["Error: Invalid white balance mode"] := by
  cases hx : configurerSetWhiteBalance cs.controls mode <;>
    simp [messageSettingsWb, hx]

/-- The image-gain handler publishes at most its own error status. -/
theorem messageSettingsImageGain_pubs (cs : CameraWorkerState) (analog : Option ℚ) :
    (messageSettingsImageGain cs analog).2.1 = [] ∨
      (messageSettingsImageGain cs analog).2.1 = ["Error: Image gain not valid"] := by
  unfold messageSettingsImageGain
  cases analog <;> dsimp only <;> all_goals split <;> simp

/-- The camera settings worker never publishes a Busy status: none of its
handler paths produces one. -/
theorem cameraReceiveSettings_not_busy (cs : CameraWorkerState)
    (payload : Option CameraSettingsCommand) :
    "Busy" ∉ (cameraReceiveSettings cs payload).2 := by
  cases payload with
  | none => simp [cameraReceiveSettings]
  | some cmd =>
    unfold cameraReceiveSettings
    dsimp only
    have notBusy1 : ∀ cs' : CameraWorkerState, "Busy" ∉
        (match cmd.shutter_speed with
          | some ss => messageSettingsSs cs' ss
          | none => (cs', ([], true))).2.1 := by
      intro cs'
      cases cmd.shutter_speed with
      | none => simp
      | some ss => rcases messageSettingsSs_pubs cs' ss with h | h <;> simp [h]
    have notBusy2 : ∀ cs' : CameraWorkerState, "Busy" ∉
        (match cmd.white_balance_gain with
          | some (r, b) => messageSettingsWbGain cs' r b
          | none => (cs', ([], true))).2.1 := by
      intro cs'
      cases hwb : cmd.white_balance_gain with
      | none => simp
      | some rb =>
        rcases messageSettingsWbGain_pubs cs' rb.1 rb.2 with h | h <;> simp [h]
    have notBusy3 : ∀ cs' : CameraWorkerState, "Busy" ∉
        (match cmd.white_balance with
          | some mode => messageSettingsWb cs' mode
          | none => (cs', ([], true))).2.1 := by
      intro cs'
      cases cmd.white_balance with
      | none => simp
      | some mode => rcases messageSettingsWb_pubs cs' mode with h | h <;> simp [h]
    have notBusy4 : ∀ cs' : CameraWorkerState, "Busy" ∉
        (match cmd.image_gain with
          | some analog => messageSettingsImageGain cs' analog
          | none => (cs', ([], true))).2.1 := by
      intro cs'
      cases cmd.image_gain with
      | none => simp
      | some analog =>
        rcases messageSettingsImageGain_pubs cs' analog with h | h <;> simp [h]
    rcases h1 : (match cmd.shutter_speed with
      | some ss => messageSettingsSs cs ss
      | none => (cs, ([], true))) with ⟨cs1, pubs1, b1⟩
    have hb1 : "Busy" ∉ pubs1 := by have := notBusy1 cs; rw [h1] at this; exact this
    rw [h1]
    cases b1 with
    | false => simpa using hb1
    | true =>
      rcases h2 : (match cmd.white_balance_gain with
        | some (r, b) => messageSettingsWbGain cs1 r b
        | none => (cs1, ([], true))) with ⟨cs2, pubs2, b2⟩
      have hb2 : "Busy" ∉ pubs2 := by have := notBusy2 cs1; rw [h2] at this; exact this
      dsimp only
      rw [h2]
      cases b2 with
      | false => simp_all
      | true =>
        rcases h3 : (match cmd.white_balance with
          | some mode => messageSettingsWb cs2 mode
          | none => (cs2, ([], true))) with ⟨cs3, pubs3, b3⟩
        have hb3 : "Busy" ∉ pubs3 := by have := notBusy3 cs2; rw [h3] at this; exact this
        dsimp only
        rw [h3]
        cases b3 with
        | false => simp_all
        | true =>
          rcases h4 : (match cmd.image_gain with
            | some analog => messageSettingsImageGain cs3 analog
            | none => (cs3, ([], true))) with ⟨cs4, pubs4, b4⟩
          have hb4 : "Busy" ∉ pubs4 := by have := notBusy4 cs3; rw [h4] at this; exact this
          dsimp only
          rw [h4]
          cases b4 with
          | false => simp_all
          | true => simp_all

/-- Concrete camera controls for the C8 counterexample. -/
def c8Controls : CameraControlsState :=
  { expMin := 100, expMax := 100000 }

/-- Concrete camera worker state for the C8 counterexample. -/
def c8Worker : CameraWorkerState :=
  { controls := c8Controls, exposureTime := 15000, whiteBalanceGain := (2, 1),
    whiteBalanceMode := "off", imageGain := 1 }

/-- Concrete settings command for the C8 counterexample. -/
def c8Cmd : CameraSettingsCommand :=
  { shutter_speed := some 500 }

/-- C8 counterexample: in the pscopehat variant a settings command
received while an acquisition routine is active is not rejected with Busy
and does change state: the camera worker handles it with no busy check,
publishes the updated status, and changes the stored exposure time; so
the claim is false as stated for settings commands. -/
theorem settings_busy_counterexample :
    (systemReceiveSettings true c8Worker (some c8Cmd)).2 = ["Camera settings updated"] ∧
    "Busy" ∉ (systemReceiveSettings true c8Worker (some c8Cmd)).2 ∧
    (systemReceiveSettings true c8Worker (some c8Cmd)).1.exposureTime = 500 ∧
    c8Worker.exposureTime = 15000 := by
  refine ⟨?_, ?_, ?_, ?_⟩ <;> decide

/-- C8 (amended): every update_config command received while an
acquisition routine is active is rejected with a Busy status and leaves
the stored metadata unchanged; settings commands are handled by the
separate camera worker, whose handling does not depend on routine
activity and never publishes a Busy status. -/
theorem busy_rejection (routineActive : Bool) (md : Metadata) (m : ImagerCommand)
    (cs : CameraWorkerState) (payload : Option CameraSettingsCommand)
    (hactive : routineActive = true) :
    (updateMetadata routineActive md m).1 = md ∧
    (updateMetadata routineActive md m).2 = ["Busy"] ∧
    systemReceiveSettings routineActive cs payload = cameraReceiveSettings cs payload ∧
    "Busy" ∉ (systemReceiveSettings routineActive cs payload).2 := by
  subst hactive
  exact ⟨by simp [updateMetadata], by simp [updateMetadata], rfl,
    cameraReceiveSettings_not_busy cs payload⟩

/-- Concrete update_config command for the C8 witness. -/
def c8ConfigCmd : ImagerCommand :=
  { action := "update_config",
    config := some { object_date := some "2024-06-02" } }

/-- Concrete stored metadata for the C8 witness. -/
def c8Meta : Metadata :=
  { object_date := some "2024-06-01" }

/-- C8 witness: the amended busy-rejection theorem applied at a concrete
active routine, stored metadata, update_config command, and settings
payload. -/
theorem busy_rejection_witness :
    (true : Bool) = true ∧
    ((updateMetadata true c8Meta c8ConfigCmd).1 = c8Meta ∧
     (updateMetadata true c8Meta c8ConfigCmd).2 = ["Busy"] ∧
     systemReceiveSettings true c8Worker (some c8Cmd) =
       cameraReceiveSettings c8Worker (some c8Cmd) ∧
     "Busy" ∉ (systemReceiveSettings true c8Worker (some c8Cmd)).2) :=
  ⟨rfl, busy_rejection true c8Meta c8ConfigCmd c8Worker (some c8Cmd) rfl⟩

/-! ### Serialization of concurrent pump motions -/

/-- The publish-permission scan distributes over trace concatenation. -/
theorem scanPub_append (t₁ t₂ : List PumpEvent) (c : Bool) :
    scanPub c (t₁ ++ t₂) = (scanPub c t₁).bind fun c' => scanPub c' t₂ := by
  induction t₁ generalizing c with
  | nil => rfl
  | cons e rest ih =>
    cases e with
    | pub i =>
      cases c with
      | true => simpa [scanPub] using ih false
      | false => simp [scanPub]
    | doneFire => simpa [scanPub] using ih true

/-- Publish counts add over trace concatenation. -/
theorem countPub_append (t₁ t₂ : List PumpEvent) :
    countPub (t₁ ++ t₂) = countPub t₁ + countPub t₂ := by
  simp [countPub, List.filter_append]

/-- Done-firing counts add over trace concatenation. -/
theorem countDone_append (t₁ t₂ : List PumpEvent) :
    countDone (t₁ ++ t₂) = countDone t₁ + countDone t₂ := by
  simp [countDone, List.filter_append]

/-- The inductive invariant of the pump RPC system: the trace scan never
failed and ends with permission c; the number of unanswered publishes is
zero when c holds and one otherwise; while the last publish is
unanswered, the lock is held by the publisher and no caller is between
acquiring and publishing; any caller between acquiring and publishing
holds the lock, and at most one caller is in that region. -/
def PumpInv (s : PumpSys) : Prop :=
  ∃ c : Bool, scanPub true s.trace = some c ∧
    countPub s.trace = countDone s.trace + (if c then 0 else 1) ∧
    (c = false → s.lock = true ∧ s.pc1.isMid = false ∧ s.pc2.isMid = false) ∧
    (s.pc1.isMid = true → s.lock = true) ∧
    (s.pc2.isMid = true → s.lock = true) ∧
    ¬(s.pc1.isMid = true ∧ s.pc2.isMid = true)

/-- The invariant holds initially. -/
theorem pumpInv_init : PumpInv pumpInit := by
  refine ⟨true, rfl, rfl, ?_, ?_, ?_, ?_⟩ <;> simp [pumpInit, CallerPC.isMid]

/-- One publish counts as one publish and no done-firing. -/
theorem countPub_pub (i : Bool) : countPub [PumpEvent.pub i] = 1 := rfl

/-- One done-firing counts as no publish. -/
theorem countPub_doneFire : countPub [PumpEvent.doneFire] = 0 := rfl

/-- One publish counts as no done-firing. -/
theorem countDone_pub (i : Bool) : countDone [PumpEvent.pub i] = 0 := rfl

/-- One done-firing counts as one done-firing. -/
theorem countDone_doneFire : countDone [PumpEvent.doneFire] = 1 := rfl

/-- Every step of the pump RPC system preserves the invariant. -/
theorem pumpInv_step {s s' : PumpSys} (hinv : PumpInv s) (hstep : PumpStep s s') :
    PumpInv s' := by
  obtain ⟨c, hscan, hcount, hcfalse, hm1, hm2, hboth⟩ := hinv
  cases hstep with
  | acquire i hpc hlock =>
    have hc : c = true := by
      cases c with
      | true => rfl
      | false => exact absurd (hcfalse rfl).1 (by simp [hlock])
    subst hc
    cases i with
    | true =>
      refine ⟨true, ?_, ?_, ?_, ?_, ?_, ?_⟩
      · exact hscan
      · exact hcount
      · exact fun h => nomatch h
      · exact fun _ => rfl
      · exact fun _ => rfl
      · exact fun hcontra => absurd (hm2 hcontra.2) (by simp [hlock])
    | false =>
      refine ⟨true, ?_, ?_, ?_, ?_, ?_, ?_⟩
      · exact hscan
      · exact hcount
      · exact fun h => nomatch h
      · exact fun _ => rfl
      · exact fun _ => rfl
      · exact fun hcontra => absurd (hm1 hcontra.1) (by simp [hlock])
  | clearDone i hpc =>
    cases i with
    | true =>
      have hpc1 : s.pc1 = CallerPC.acquired := hpc
      have hmid1 : s.pc1.isMid = true := by rw [hpc1]; rfl
      have hlock : s.lock = true := hm1 hmid1
      have hc : c = true := by
        cases c with
        | true => rfl
        | false => exact absurd hmid1 (by simp [(hcfalse rfl).2.1])
      subst hc
      refine ⟨true, ?_, ?_, ?_, ?_, ?_, ?_⟩
      · exact hscan
      · exact hcount
      · exact fun h => nomatch h
      · exact fun _ => hlock
      · exact fun h => hm2 h
      · exact fun hcontra => hboth ⟨hmid1, hcontra.2⟩
    | false =>
      have hpc2 : s.pc2 = CallerPC.acquired := hpc
      have hmid2 : s.pc2.isMid = true := by rw [hpc2]; rfl
      have hlock : s.lock = true := hm2 hmid2
      have hc : c = true := by
        cases c with
        | true => rfl
        | false => exact absurd hmid2 (by simp [(hcfalse rfl).2.2])
      subst hc
      refine ⟨true, ?_, ?_, ?_, ?_, ?_, ?_⟩
      · exact hscan
      · exact hcount
      · exact fun h => nomatch h
      · exact fun h => hm1 h
      · exact fun _ => hlock
      · exact fun hcontra => hboth ⟨hcontra.1, hmid2⟩
  | subscribe i hpc =>
    cases i with
    | true =>
      have hpc1 : s.pc1 = CallerPC.cleared := hpc
      have hmid1 : s.pc1.isMid = true := by rw [hpc1]; rfl
      have hlock : s.lock = true := hm1 hmid1
      have hc : c = true := by
        cases c with
        | true => rfl
        | false => exact absurd hmid1 (by simp [(hcfalse rfl).2.1])
      subst hc
      refine ⟨true, ?_, ?_, ?_, ?_, ?_, ?_⟩
      · exact hscan
      · exact hcount
      · exact fun h => nomatch h
      · exact fun _ => hlock
      · exact fun h => hm2 h
      · exact fun hcontra => hboth ⟨hmid1, hcontra.2⟩
    | false =>
      have hpc2 : s.pc2 = CallerPC.cleared := hpc
      have hmid2 : s.pc2.isMid = true := by rw [hpc2]; rfl
      have hlock : s.lock = true := hm2 hmid2
      have hc : c = true := by
        cases c with
        | true => rfl
        | false => exact absurd hmid2 (by simp [(hcfalse rfl).2.2])
      subst hc
      refine ⟨true, ?_, ?_, ?_, ?_, ?_, ?_⟩
      · exact hscan
      · exact hcount
      · exact fun h => nomatch h
      · exact fun h => hm1 h
      · exact fun _ => hlock
      · exact fun hcontra => hboth ⟨hcontra.1, hmid2⟩
  | publish i hpc =>
    cases i with
    | true =>
      have hpc1 : s.pc1 = CallerPC.subscribed := hpc
      have hmid1 : s.pc1.isMid = true := by rw [hpc1]; rfl
      have hlock : s.lock = true := hm1 hmid1
      have hc : c = true := by
        cases c with
        | true => rfl
        | false => exact absurd hmid1 (by simp [(hcfalse rfl).2.1])
      subst hc
      have hmid2 : s.pc2.isMid = false := by
        cases h2 : s.pc2.isMid with
        | true => exact absurd ⟨hmid1, h2⟩ hboth
        | false => rfl
      have hcount' : countPub s.trace = countDone s.trace := by simpa using hcount
      refine ⟨false, ?_, ?_, ?_, ?_, ?_, ?_⟩
      · show scanPub true (s.trace ++ [PumpEvent.pub true]) = some false
        rw [scanPub_append, hscan]
        rfl
      · show countPub (s.trace ++ [PumpEvent.pub true]) =
          countDone (s.trace ++ [PumpEvent.pub true]) + 1
        rw [countPub_append, countDone_append, countPub_pub, countDone_pub]
        omega
      · exact fun _ => ⟨hlock, rfl, hmid2⟩
      · exact fun h => nomatch h
      · exact fun h => hm2 h
      · exact fun hcontra => nomatch hcontra.1
    | false =>
      have hpc2 : s.pc2 = CallerPC.subscribed := hpc
      have hmid2 : s.pc2.isMid = true := by rw [hpc2]; rfl
      have hlock : s.lock = true := hm2 hmid2
      have hc : c = true := by
        cases c with
        | true => rfl
        | false => exact absurd hmid2 (by simp [(hcfalse rfl).2.2])
      subst hc
      have hmid1 : s.pc1.isMid = false := by
        cases h1 : s.pc1.isMid with
        | true => exact absurd ⟨h1, hmid2⟩ hboth
        | false => rfl
      have hcount' : countPub s.trace = countDone s.trace := by simpa using hcount
      refine ⟨false, ?_, ?_, ?_, ?_, ?_, ?_⟩
      · show scanPub true (s.trace ++ [PumpEvent.pub false]) = some false
        rw [scanPub_append, hscan]
        rfl
      · show countPub (s.trace ++ [PumpEvent.pub false]) =
          countDone (s.trace ++ [PumpEvent.pub false]) + 1
        rw [countPub_append, countDone_append, countPub_pub, countDone_pub]
        omega
      · exact fun _ => ⟨hlock, hmid1, rfl⟩
      · exact fun h => hm1 h
      · exact fun h => nomatch h
      · exact fun hcontra => nomatch hcontra.2
  | waitDone i hpc hdone =>
    cases i with
    | true =>
      refine ⟨c, hscan, hcount, ?_, ?_, ?_, ?_⟩
      · exact fun hcf => ⟨(hcfalse hcf).1, rfl, (hcfalse hcf).2.2⟩
      · exact fun h => nomatch h
      · exact fun h => hm2 h
      · exact fun hcontra => nomatch hcontra.1
    | false =>
      refine ⟨c, hscan, hcount, ?_, ?_, ?_, ?_⟩
      · exact fun hcf => ⟨(hcfalse hcf).1, (hcfalse hcf).2.1, rfl⟩
      · exact fun h => hm1 h
      · exact fun h => nomatch h
      · exact fun hcontra => nomatch hcontra.2
  | statusDone hout =>
    have hc : c = false := by
      cases c with
      | false => rfl
      | true =>
        exfalso
        have h := hcount
        simp at h
        omega
    subst hc
    obtain ⟨hlock, hmid1, hmid2⟩ := hcfalse rfl
    have hcount' : countPub s.trace = countDone s.trace + 1 := by simpa using hcount
    refine ⟨true, ?_, ?_, ?_, ?_, ?_, ?_⟩
    · show scanPub true (s.trace ++ [PumpEvent.doneFire]) = some true
      rw [scanPub_append, hscan]
      rfl
    · show countPub (s.trace ++ [PumpEvent.doneFire]) =
        countDone (s.trace ++ [PumpEvent.doneFire]) + 0
      rw [countPub_append, countDone_append, countPub_doneFire, countDone_doneFire]
      omega
    · exact fun h => nomatch h
    · exact fun h => absurd h (by simp [hmid1])
    · exact fun h => absurd h (by simp [hmid2])
    · exact fun hcontra => absurd hcontra.1 (by simp [hmid1])

/-- The invariant holds in every reachable state. -/
theorem pumpInv_reachable {s : PumpSys} (h : PumpReachable s) : PumpInv s := by
  induction h with
  | init => exact pumpInv_init
  | step _ hstep ih => exact pumpInv_step ih hstep

/-- Without publish permission, a trace segment ending in a publish must
open with a done-firing. -/
theorem scanPub_false_mem (t₁ t₂ : List PumpEvent) (j : Bool) (c' : Bool)
    (h : scanPub false (t₁ ++ PumpEvent.pub j :: t₂) = some c') :
    PumpEvent.doneFire ∈ t₁ := by
  cases t₁ with
  | nil => simp [scanPub] at h
  | cons e rest =>
    cases e with
    | pub k => simp [scanPub] at h
    | doneFire => exact List.mem_cons_self _ _

/-- In any trace accepted by the publish-permission scan, a done-firing
separates any two publishes. -/
theorem scanPub_separation (t₀ t₁ t₂ : List PumpEvent) (i j : Bool) (c' : Bool)
    (h : scanPub true (t₀ ++ PumpEvent.pub i :: (t₁ ++ PumpEvent.pub j :: t₂)) = some c') :
    PumpEvent.doneFire ∈ t₁ := by
  rw [scanPub_append] at h
  cases h0 : scanPub true t₀ with
  | none => rw [h0] at h; simp at h
  | some c0 =>
    rw [h0] at h
    simp only [Option.some_bind] at h
    cases c0 with
    | false => simp [scanPub] at h
    | true =>
      rw [show scanPub true (PumpEvent.pub i :: (t₁ ++ PumpEvent.pub j :: t₂)) =
        scanPub false (t₁ ++ PumpEvent.pub j :: t₂) from rfl] at h
      exact scanPub_false_mem t₁ t₂ j c' h

/-- C4: in every reachable interleaving of the pump RPC system, between
any two publishes of a move command there is a done-signal firing: the
second publish happens only after the done signal for the first
publish's run has fired, so no two pump move commands are ever in flight
concurrently. -/
theorem run_discrete_serialized (s : PumpSys) (h : PumpReachable s)
    (t₀ t₁ t₂ : List PumpEvent) (i j : Bool)
    (hdec : s.trace = t₀ ++ PumpEvent.pub i :: (t₁ ++ PumpEvent.pub j :: t₂)) :
    PumpEvent.doneFire ∈ t₁ := by
  obtain ⟨c, hscan, -, -, -, -, -⟩ := pumpInv_reachable h
  rw [hdec] at hscan
  exact scanPub_separation t₀ t₁ t₂ i j c hscan

/-- Final state of a concrete execution in which both callers complete a
run_discrete call. -/
def c4Final : PumpSys :=
  { lock := true, done := false, pc1 := CallerPC.finished, pc2 := CallerPC.waiting,
    trace := [PumpEvent.pub true, PumpEvent.doneFire, PumpEvent.pub false] }

/-- Intermediate states of the concrete two-caller execution. -/
def c4S1 : PumpSys :=
  { lock := true, done := false, pc1 := CallerPC.acquired, pc2 := CallerPC.start, trace := [] }

/-- State after caller one clears the done event. -/
def c4S2 : PumpSys :=
  { lock := true, done := false, pc1 := CallerPC.cleared, pc2 := CallerPC.start, trace := [] }

/-- State after caller one subscribes. -/
def c4S3 : PumpSys :=
  { lock := true, done := false, pc1 := CallerPC.subscribed, pc2 := CallerPC.start, trace := [] }

/-- State after caller one publishes its move command. -/
def c4S4 : PumpSys :=
  { lock := true, done := false, pc1 := CallerPC.waiting, pc2 := CallerPC.start,
    trace := [PumpEvent.pub true] }

/-- State after the pump reports completion of the first move. -/
def c4S5 : PumpSys :=
  { lock := false, done := true, pc1 := CallerPC.waiting, pc2 := CallerPC.start,
    trace := [PumpEvent.pub true, PumpEvent.doneFire] }

/-- State after caller one returns from waiting. -/
def c4S6 : PumpSys :=
  { lock := false, done := true, pc1 := CallerPC.finished, pc2 := CallerPC.start,
    trace := [PumpEvent.pub true, PumpEvent.doneFire] }

/-- State after caller two acquires the freed lock. -/
def c4S7 : PumpSys :=
  { lock := true, done := true, pc1 := CallerPC.finished, pc2 := CallerPC.acquired,
    trace := [PumpEvent.pub true, PumpEvent.doneFire] }

/-- State after caller two clears the done event. -/
def c4S8 : PumpSys :=
  { lock := true, done := false, pc1 := CallerPC.finished, pc2 := CallerPC.cleared,
    trace := [PumpEvent.pub true, PumpEvent.doneFire] }

/-- State after caller two subscribes. -/
def c4S9 : PumpSys :=
  { lock := true, done := false, pc1 := CallerPC.finished, pc2 := CallerPC.subscribed,
    trace := [PumpEvent.pub true, PumpEvent.doneFire] }

/-- The concrete two-caller execution is reachable. -/
theorem c4Final_reachable : PumpReachable c4Final := by
  have h0 : PumpReachable pumpInit := PumpReachable.init
  have h1 : PumpReachable c4S1 :=
    PumpReachable.step h0 (PumpStep.acquire pumpInit true rfl rfl)
  have h2 : PumpReachable c4S2 := PumpReachable.step h1 (PumpStep.clearDone c4S1 true rfl)
  have h3 : PumpReachable c4S3 := PumpReachable.step h2 (PumpStep.subscribe c4S2 true rfl)
  have h4 : PumpReachable c4S4 := PumpReachable.step h3 (PumpStep.publish c4S3 true rfl)
  have h5 : PumpReachable c4S5 := PumpReachable.step h4 (PumpStep.statusDone c4S4 (by decide))
  have h6 : PumpReachable c4S6 := PumpReachable.step h5 (PumpStep.waitDone c4S5 true rfl rfl)
  have h7 : PumpReachable c4S7 := PumpReachable.step h6 (PumpStep.acquire c4S6 false rfl rfl)
  have h8 : PumpReachable c4S8 := PumpReachable.step h7 (PumpStep.clearDone c4S7 false rfl)
  have h9 : PumpReachable c4S9 := PumpReachable.step h8 (PumpStep.subscribe c4S8 false rfl)
  exact PumpReachable.step h9 (PumpStep.publish c4S9 false rfl)

/-- C4 witness: the serialization theorem applied to the concrete
reachable execution in which caller one publishes, the pump completes,
and caller two then publishes: the done-firing lies between the two
publishes. -/
theorem run_discrete_serialized_witness :
    PumpReachable c4Final ∧ PumpEvent.doneFire ∈ [PumpEvent.doneFire] :=
  ⟨c4Final_reachable,
   run_discrete_serialized c4Final c4Final_reachable [] [PumpEvent.doneFire] [] true false
     rfl⟩

end PlanktoScope
